import Mathlib

/-!
Verification of the ApplicationMonitor cog
(src/applicationmonitor/applicationmonitor.py).

The development shallowly embeds the state and operations of the cog:

* `Tracker` models `self.known_pending`, the process-wide dict mapping a
  guild id to the set of member ids last known to be pending.
* `GuildConfig` models the per-guild configuration dict registered in
  `__init__` (`notification_channel`, `notification_role`, `enabled`,
  `debug`, `check_interval`).
* `diffAndUpdate` is the set computation of `check_pending_members`
  (lines 92-110): current pending ids minus the known set, followed by
  overwriting the stored snapshot.
* `check_pending_members` models the whole method, including its
  outermost try/except (faults are absorbed, the tracker is left
  unchanged) and the notification attempts made for resolvable members.
* `runPass` / `runLoop` model the body of `periodic_check`: the guild
  iteration inside the loop-level try, whose handler logs and sleeps.
* `notify_new_application` models the notifier (lines 118-153).
* `toggle` models the enable/disable command (lines 183-201).
* `on_member_update` models the listener (lines 388-439).
* `add_log` / `clampLines` model the bounded log buffer
  (`deque(maxlen=50)`, line 47) and the line clamp of `logs` (line 306).

Guild ids and member ids are modelled as `Nat`; Python sets of member
ids as `Finset Nat`; `None`-able ids as `Option Nat` with Python
truthiness (`None` and `0` are falsy); exceptions as `Except Unit`.
-/

namespace ApplicationMonitor

/-- Member ids are opaque identifiers; we use naturals. -/
abbrev MemberId := Nat

/-- Guild ids are opaque identifiers; we use naturals. -/
abbrev GuildId := Nat

/-- `self.known_pending`: dict from guild id to the set of member ids last
known as pending.  `none` models absence of the key. -/
abbrev Tracker := GuildId → Option (Finset MemberId)

/-- `self.known_pending[g] = s` (dict item assignment). -/
def Tracker.store (kp : Tracker) (g : GuildId) (s : Finset MemberId) : Tracker :=
  fun x => if x = g then some s else kp x

/-- `del self.known_pending[g]` (the disable branch of `toggle`). -/
def Tracker.del (kp : Tracker) (g : GuildId) : Tracker :=
  fun x => if x = g then none else kp x

/-- `self.known_pending.get(g, set())` (line 96). -/
def Tracker.getKnown (kp : Tracker) (g : GuildId) : Finset MemberId :=
  (kp g).getD ∅

/-- The per-guild configuration dict (`default_guild`, lines 23-29). -/
structure GuildConfig where
  notification_channel : Option Nat
  notification_role : Option Nat
  enabled : Bool
  debug : Bool
  check_interval : Nat
deriving DecidableEq

/-- The registered defaults (lines 23-29). -/
def defaultGuild : GuildConfig :=
  { notification_channel := none
    notification_role := none
    enabled := false
    debug := false
    check_interval := 60 }

/-- Python truthiness of an optional id: `None` and `0` are falsy, so
`not channel_id` (line 123) is `optFalsy channel_id`. -/
def optFalsy (o : Option Nat) : Bool := o.getD 0 == 0

/-- The set computation of `check_pending_members` (lines 96-110):
`new = current - known_pending.get(g, set())`, then
`known_pending[g] = current`.  Returns the newly pending ids and the
updated tracker. -/
def diffAndUpdate (kp : Tracker) (g : GuildId) (current : Finset MemberId) :
    Finset MemberId × Tracker :=
  (current \ Tracker.getKnown kp g, Tracker.store kp g current)

/-- Iterates `diffAndUpdate` over a sequence of poll snapshots, collecting
the newly pending set produced at each step. -/
def runSteps (kp : Tracker) (g : GuildId) :
    List (Finset MemberId) → List (Finset MemberId) × Tracker
  | [] => ([], kp)
  | s :: rest =>
      let p := diffAndUpdate kp g s
      let q := runSteps p.2 g rest
      (p.1 :: q.1, q.2)

theorem store_self (kp : Tracker) (g : GuildId) (s : Finset MemberId) :
    Tracker.store kp g s g = some s := by
  simp [Tracker.store]

theorem getKnown_store (kp : Tracker) (g : GuildId) (s : Finset MemberId) :
    Tracker.getKnown (Tracker.store kp g s) g = s := by
  simp [Tracker.getKnown, Tracker.store]

theorem runSteps_outputs (g : GuildId) (snaps : List (Finset MemberId)) :
    ∀ (kp : Tracker) (seed : Finset MemberId), kp g = some seed →
      (runSteps kp g snaps).1 =
        List.zipWith (fun cur prev => cur \ prev) snaps (seed :: snaps) := by
  induction snaps with
  | nil => intro kp seed _; rfl
  | cons s rest ih =>
      intro kp seed hseed
      have hstep : Tracker.store kp g s g = some s := store_self kp g s
      have hrec := ih (Tracker.store kp g s) s hstep
      simp [runSteps, diffAndUpdate, Tracker.getKnown, hseed] at hrec ⊢
      exact hrec

theorem runSteps_tracker (g : GuildId) (snaps : List (Finset MemberId)) :
    ∀ (i : Nat) (h : i < snaps.length) (kp : Tracker),
      (runSteps kp g (snaps.take (i + 1))).2 g = some (snaps.get ⟨i, h⟩) := by
  induction snaps with
  | nil => intro i h; exact absurd h (Nat.not_lt_zero i)
  | cons s rest ih =>
      intro i h kp
      cases i with
      | zero => simp [runSteps, diffAndUpdate, store_self]
      | succ j =>
          have hj : j < rest.length := Nat.lt_of_succ_lt_succ h
          have := ih j hj (Tracker.store kp g s)
          simpa [runSteps, diffAndUpdate] using this

/-- C1: iterating the diff-and-update step of `check_pending_members` over
poll snapshots `S0, …, Sn` from a tracker seeded with `seed` yields, at
step `i`, exactly the set difference `Si - S(i-1)` (with `S(-1) = seed`);
after step `i` the stored snapshot for the guild is `Si`; and a second
consecutive application with the same snapshot `S` returns the empty
set. -/
theorem diffAndUpdate_trace_spec (kp : Tracker) (g : GuildId)
    (seed : Finset MemberId) (snaps : List (Finset MemberId))
    (hseed : kp g = some seed) :
    (runSteps kp g snaps).1 =
        List.zipWith (fun cur prev => cur \ prev) snaps (seed :: snaps) ∧
    (∀ (i : Nat) (h : i < snaps.length),
        (runSteps kp g (snaps.take (i + 1))).2 g = some (snaps.get ⟨i, h⟩)) ∧
    (∀ S : Finset MemberId,
        (diffAndUpdate (diffAndUpdate kp g S).2 g S).1 = ∅) := by
  refine ⟨runSteps_outputs g snaps kp seed hseed,
          fun i h => runSteps_tracker g snaps i h kp, fun S => ?_⟩
  simp [diffAndUpdate, getKnown_store]

theorem diffAndUpdate_trace_spec_witness :
    (fun _ => some (∅ : Finset MemberId) : Tracker) 0 = some ∅ ∧
    ((runSteps (fun _ => some ∅) 0 [{1}, {1, 2}]).1 =
        List.zipWith (fun cur prev => cur \ prev) [{1}, {1, 2}]
          (∅ :: [{1}, {1, 2}]) ∧
    (∀ (i : Nat) (h : i < ([{1}, {1, 2}] : List (Finset MemberId)).length),
        (runSteps (fun _ => some ∅) 0 (([{1}, {1, 2}] :
            List (Finset MemberId)).take (i + 1))).2 0 =
          some (([{1}, {1, 2}] : List (Finset MemberId)).get ⟨i, h⟩)) ∧
    (∀ S : Finset MemberId,
        (diffAndUpdate (diffAndUpdate (fun _ => some ∅) 0 S).2 0 S).1 = ∅)) :=
  ⟨rfl, diffAndUpdate_trace_spec (fun _ => some ∅) 0 ∅ [{1}, {1, 2}] rfl⟩

/-- A fault raised by the external `channel.send` call: either
`discord.Forbidden` (insufficient permission) or any other exception. -/
inductive Fault where
  | forbidden
  | otherError
deriving DecidableEq

/-- The environment the notifier interacts with: `guild.get_channel`,
`guild.get_role` (modelled as resolution predicates on ids) and the
outcome `channel.send` would have per member id (`none` = delivery
succeeds, `some f` = the call raises fault `f`). -/
structure NotifyEnv where
  resolveChannel : Nat → Bool
  resolveRole : Nat → Bool
  delivery : MemberId → Option Fault

/-- The outcome of one `notify_new_application` call (lines 118-153):
the two early returns for missing / unresolvable configuration, or the
result of the attempted `channel.send` (line 150), whose exceptions are
caught by the handler at line 152. -/
inductive NotifyResult where
  | configMissing
  | configInvalid
  | sent
  | sendError (f : Fault)
deriving DecidableEq

/-- `True` exactly on the outcomes in which the `channel.send` call of
line 150 was reached. -/
def sendAttempted : NotifyResult → Bool
  | .sent => true
  | .sendError _ => true
  | _ => false

/-- `notify_new_application` (lines 118-153): returns without sending if
`channel_id` or `role_id` is falsy (line 123) or if `get_channel` /
`get_role` fails (line 130); otherwise attempts `channel.send`, catching
any exception. -/
def notify_new_application (cfg : GuildConfig) (env : NotifyEnv)
    (mid : MemberId) : NotifyResult :=
  if optFalsy cfg.notification_channel || optFalsy cfg.notification_role then
    .configMissing
  else if !(env.resolveChannel (cfg.notification_channel.getD 0) &&
            env.resolveRole (cfg.notification_role.getD 0)) then
    .configInvalid
  else
    match env.delivery mid with
    | none => .sent
    | some f => .sendError f

/-- The message kind, per the spec's notifier interface. -/
inductive NotifyKind where
  | application
  | approval
  | test
deriving DecidableEq

/-- One notification attempt recorded during a reconciliation step or a
listener invocation. -/
structure Attempt where
  kind : NotifyKind
  memberId : MemberId
  result : NotifyResult
deriving DecidableEq

/-- One guild as seen by a reconciliation pass: its id, the outcome of
reading its configuration (`await self.config.guild(guild).all()`, which
may raise), the outcome of listing its pending members (lines 92-93,
which may raise), and `guild.get_member` success (line 105). -/
structure GuildState where
  gid : GuildId
  cfgRead : Except Unit GuildConfig
  pendingFetch : Except Unit (Finset MemberId)
  resolveMember : MemberId → Bool

/-- `check_pending_members` (lines 83-116).  The whole body runs inside a
try/except that logs and returns, so a fault reading the configuration
or listing members leaves the tracker unchanged and makes no attempt.
Otherwise: if disabled, return; else compute the newly pending ids, call
`notify_new_application` for each one whose member object resolves
(iterated in sorted order, standing in for Python's set iteration), and
overwrite the stored snapshot with the current pending set. -/
def check_pending_members (kp : Tracker) (g : GuildState) (env : NotifyEnv) :
    Tracker × List Attempt :=
  match g.cfgRead with
  | .error _ => (kp, [])
  | .ok cfg =>
    if !cfg.enabled then (kp, [])
    else
      match g.pendingFetch with
      | .error _ => (kp, [])
      | .ok current =>
        let newIds := current \ Tracker.getKnown kp g.gid
        let atts := (newIds.sort (· ≤ ·)).filterMap fun mid =>
          if g.resolveMember mid then
            some ⟨.application, mid, notify_new_application cfg env mid⟩
          else none
        (Tracker.store kp g.gid current, atts)

/-- One iteration of the `while` body of `periodic_check` (lines 66-81):
iterate the guilds inside the loop-level try; reading a guild's
configuration (line 68) can raise, in which case the handler at line 79
logs, the rest of the pass is abandoned, and the loop sleeps.  Enabled
guilds go through `check_pending_members`, which never raises. -/
def runPass (kp : Tracker) (env : NotifyEnv) : List GuildState → Tracker
  | [] => kp
  | g :: rest =>
    match g.cfgRead with
    | .error _ => kp
    | .ok cfg =>
      if cfg.enabled then runPass (check_pending_members kp g env).1 env rest
      else runPass kp env rest

/-- The periodic loop across successive passes: each pass runs to the
handler or to completion, the loop sleeps, and the next pass starts. -/
def runLoop (kp : Tracker) (env : NotifyEnv) : List (List GuildState) → Tracker
  | [] => kp
  | p :: ps => runLoop (runPass kp env p) env ps

/-- The `toggle` command (lines 183-201), given the current `enabled`
flag and the guild's currently pending member ids: enabling seeds the
tracker with the current pending set; disabling deletes the guild's
entry.  Returns the new flag and tracker. -/
def toggle (kp : Tracker) (g : GuildId) (enabled : Bool)
    (currentPending : Finset MemberId) : Bool × Tracker :=
  if !enabled then (true, Tracker.store kp g currentPending)
  else (false, Tracker.del kp g)

/-- The `reset` command (lines 238-243): replaces the stored snapshot
with the currently pending member ids. -/
def resetKnown (kp : Tracker) (g : GuildId)
    (currentPending : Finset MemberId) : Tracker :=
  Tracker.store kp g currentPending

/-- `on_member_update` (lines 388-439).  Only the transition
`pending → not pending` does anything: the member id is discarded from
the guild's tracker entry when one exists; then, if monitoring is
enabled and channel/role are configured and resolve, one approval
notification is attempted (its `channel.send` exceptions caught at line
438). -/
def on_member_update (kp : Tracker) (g : GuildId) (cfg : GuildConfig)
    (env : NotifyEnv) (beforePending afterPending : Bool)
    (mid : MemberId) : Tracker × List Attempt :=
  if beforePending && !afterPending then
    let kp2 : Tracker :=
      fun x => if x = g then (kp g).map (fun s => s.erase mid) else kp x
    if !cfg.enabled then (kp2, [])
    else if optFalsy cfg.notification_channel ||
            optFalsy cfg.notification_role then (kp2, [])
    else if !(env.resolveChannel (cfg.notification_channel.getD 0) &&
              env.resolveRole (cfg.notification_role.getD 0)) then (kp2, [])
    else
      match env.delivery mid with
      | none => (kp2, [⟨.approval, mid, .sent⟩])
      | some f => (kp2, [⟨.approval, mid, .sendError f⟩])
  else (kp, [])

/-- How a call site reports a caught delivery fault. -/
inductive HandlerOutcome where
  | forbiddenReported
  | unknownReported
deriving DecidableEq

/-- The exception handling of the `test` command's send (lines 285-294):
`except discord.Forbidden` is a dedicated branch, `except Exception` the
generic one. -/
def test_classify : Fault → HandlerOutcome
  | .forbidden => .forbiddenReported
  | .otherError => .unknownReported

/-- The exception handling of `notify_new_application`'s send (lines
149-153): a single `except Exception` branch catches every fault. -/
def application_classify : Fault → HandlerOutcome :=
  fun _ => .unknownReported

/-- The exception handling of `on_member_update`'s send (lines 435-439):
a single `except Exception` branch catches every fault. -/
def approval_classify : Fault → HandlerOutcome :=
  fun _ => .unknownReported

/-- `deque(maxlen=50)` append in `add_log` (lines 44-51): the entry is
appended and only the most recent 50 entries are kept (appending to a
full deque evicts the oldest entry). -/
def add_log (logs : List String) (entry : String) : List String :=
  (logs ++ [entry]).drop (logs.length + 1 - 50)

/-- The clamp of the `logs` command (line 306):
`lines = min(max(lines, 1), 50)`; the argument is a Python int, so it
may be negative. -/
def clampLines (n : Int) : Int := min (max n 1) 50

/-- Modelled from the spec: the repository source under `src/` contains
no member-join listener (only `on_member_update` is defined), so the
join listener is taken from section 4.3 of the spec: it logs the event;
with screening active it does not itself notify (detection is deferred
to the reconciliation loop); with screening absent it notifies
immediately for the join. -/
structure JoinAction where
  logged : Bool
  notifiesImmediately : Bool
deriving DecidableEq

/-- Modelled from the spec: behaviour of the member-join listener of
section 4.3, which is absent from `src/`. -/
def on_member_join (monitoringEnabled screeningActive : Bool) : JoinAction :=
  { logged := true
    notifiesImmediately := !screeningActive }

/-- Sample tracker with no entries. -/
def kpEmpty : Tracker := fun _ => none

/-- Sample environment in which ids resolve and delivery succeeds. -/
def envOk : NotifyEnv := ⟨fun _ => true, fun _ => true, fun _ => none⟩

/-- Sample configuration with monitoring enabled and ids set. -/
def cfgOn : GuildConfig := ⟨some 1, some 2, true, false, 60⟩

theorem attempt_memberId_newly_pending (kp : Tracker) (g : GuildState)
    (env : NotifyEnv) (cfg : GuildConfig) (current : Finset MemberId)
    (hcfg : g.cfgRead = .ok cfg) (hen : cfg.enabled = true)
    (hp : g.pendingFetch = .ok current)
    (a : Attempt) (ha : a ∈ (check_pending_members kp g env).2) :
    a.memberId ∈ current \ Tracker.getKnown kp g.gid := by
  simp only [check_pending_members, hcfg, hen, hp, Bool.not_true,
    Bool.false_eq_true, if_false, List.mem_filterMap] at ha
  rcases ha with ⟨mid, hmid, hsome⟩
  by_cases hr : g.resolveMember mid
  · rw [if_pos hr] at hsome
    cases hsome
    exact (Finset.mem_sort (α := MemberId) (· ≤ ·)).mp hmid
  · rw [if_neg hr] at hsome
    exact absurd hsome (Option.some_ne_none _).symm

/-- C2: seeding a guild's snapshot with the current pending set (the
enable branch of `toggle`, identically the `reset` command) and then
immediately reconciling against the same set produces no notification
attempts; moreover any member id stored in the snapshot never produces
an application notification attempt in a reconciliation step while it
is in the stored set. -/
theorem seed_then_check_no_notifications (kp : Tracker) (g : GuildState)
    (env : NotifyEnv) (S : Finset MemberId)
    (hp : g.pendingFetch = .ok S) :
    (check_pending_members ((toggle kp g.gid false S).2) g env).2 = [] ∧
    (check_pending_members (resetKnown kp g.gid S) g env).2 = [] ∧
    (∀ m known, kp g.gid = some known → m ∈ known →
      ∀ a ∈ (check_pending_members kp g env).2, a.memberId ≠ m) := by
  have hseeded : ∀ kp2 : Tracker, kp2 g.gid = some S →
      (check_pending_members kp2 g env).2 = [] := by
    intro kp2 hkp2
    cases hcfg : g.cfgRead with
    | error e => simp [check_pending_members, hcfg]
    | ok cfg =>
        cases hen : cfg.enabled with
        | false => simp [check_pending_members, hcfg, hen]
        | true =>
            simp [check_pending_members, hcfg, hen, hp, Tracker.getKnown, hkp2]
  refine ⟨hseeded _ ?_, hseeded _ ?_, ?_⟩
  · simp [toggle, Tracker.store]
  · simp [resetKnown, Tracker.store]
  · intro m known hkn hm a ha
    cases hcfg : g.cfgRead with
    | error e =>
        simp [check_pending_members, hcfg] at ha
    | ok cfg =>
        cases hen : cfg.enabled with
        | false =>
            simp [check_pending_members, hcfg, hen] at ha
        | true =>
            have := attempt_memberId_newly_pending kp g env cfg S hcfg hen hp
              a ha
            rw [Tracker.getKnown, hkn] at this
            intro hEq
            rw [hEq] at this
            exact (Finset.mem_sdiff.mp this).2 hm

theorem seed_then_check_no_notifications_witness :
    (GuildState.mk 3 (.ok cfgOn) (.ok {4, 5}) (fun _ => true)).pendingFetch
        = .ok {4, 5} ∧
    ((check_pending_members
        ((toggle kpEmpty 3 false {4, 5}).2)
        (GuildState.mk 3 (.ok cfgOn) (.ok {4, 5}) (fun _ => true)) envOk).2
          = [] ∧
    (check_pending_members (resetKnown kpEmpty 3 {4, 5})
        (GuildState.mk 3 (.ok cfgOn) (.ok {4, 5}) (fun _ => true)) envOk).2
          = [] ∧
    (∀ m known, kpEmpty 3 = some known → m ∈ known →
      ∀ a ∈ (check_pending_members kpEmpty
          (GuildState.mk 3 (.ok cfgOn) (.ok {4, 5}) (fun _ => true)) envOk).2,
        a.memberId ≠ m)) :=
  ⟨rfl, seed_then_check_no_notifications kpEmpty
    (GuildState.mk 3 (.ok cfgOn) (.ok {4, 5}) (fun _ => true)) envOk
    {4, 5} rfl⟩

/-- C9: after a reconciliation step for an enabled guild, the stored
snapshot is overwritten with the current pending set for every
environment — whether each notification was delivered, raised a fault,
or was skipped for missing or unresolvable configuration — and
consequently a member id that stays pending is never the subject of a
later application notification attempt, even if its own notification
failed. -/
theorem snapshot_overwrite_unconditional (kp : Tracker) (g g2 : GuildState)
    (env env2 : NotifyEnv) (cfg cfg2 : GuildConfig)
    (current current2 : Finset MemberId)
    (hcfg : g.cfgRead = .ok cfg) (hen : cfg.enabled = true)
    (hp : g.pendingFetch = .ok current) :
    (check_pending_members kp g env).1 g.gid = some current ∧
    (∀ m ∈ current, g2.gid = g.gid → g2.cfgRead = .ok cfg2 →
      g2.pendingFetch = .ok current2 →
      ∀ a ∈ (check_pending_members (check_pending_members kp g env).1 g2
          env2).2,
        a.memberId ≠ m) := by
  have h1 : (check_pending_members kp g env).1 g.gid = some current := by
    simp [check_pending_members, hcfg, hen, hp, Tracker.store]
  refine ⟨h1, ?_⟩
  intro m hm hgid hcfg2 hp2 a ha
  cases hen2 : cfg2.enabled with
  | false =>
      simp [check_pending_members, hcfg2, hen2] at ha
  | true =>
      have hmem := attempt_memberId_newly_pending _ g2 env2 cfg2 current2
        hcfg2 hen2 hp2 a ha
      rw [Tracker.getKnown, hgid, h1] at hmem
      intro hEq
      rw [hEq] at hmem
      exact (Finset.mem_sdiff.mp hmem).2 hm

theorem snapshot_overwrite_unconditional_witness :
    (GuildState.mk 3 (.ok cfgOn) (.ok {4, 5}) (fun _ => true)).cfgRead
        = .ok cfgOn ∧
    cfgOn.enabled = true ∧
    ((check_pending_members kpEmpty
        (GuildState.mk 3 (.ok cfgOn) (.ok {4, 5}) (fun _ => true))
        envOk).1 3 = some {4, 5} ∧
    (∀ m ∈ ({4, 5} : Finset MemberId),
      (GuildState.mk 3 (.ok cfgOn) (.ok {4, 5, 6}) (fun _ => true)).gid = 3 →
      (GuildState.mk 3 (.ok cfgOn) (.ok {4, 5, 6}) (fun _ => true)).cfgRead
          = .ok cfgOn →
      (GuildState.mk 3 (.ok cfgOn) (.ok {4, 5, 6}) (fun _ => true)).pendingFetch
          = .ok {4, 5, 6} →
      ∀ a ∈ (check_pending_members
          (check_pending_members kpEmpty
            (GuildState.mk 3 (.ok cfgOn) (.ok {4, 5}) (fun _ => true)) envOk).1
          (GuildState.mk 3 (.ok cfgOn) (.ok {4, 5, 6}) (fun _ => true))
          envOk).2,
        a.memberId ≠ m)) :=
  ⟨rfl, rfl, snapshot_overwrite_unconditional kpEmpty
    (GuildState.mk 3 (.ok cfgOn) (.ok {4, 5}) (fun _ => true))
    (GuildState.mk 3 (.ok cfgOn) (.ok {4, 5, 6}) (fun _ => true))
    envOk envOk cfgOn cfgOn {4, 5} {4, 5, 6} rfl rfl rfl⟩

/-- C5: when the notification channel is configured but the role id is
missing, or either configured id fails to resolve, the notifier returns
one of its two configuration-failure outcomes and the `channel.send`
call is never reached. -/
theorem notify_config_failure_no_send (cfg : GuildConfig) (env : NotifyEnv)
    (mid : MemberId)
    (hchan : optFalsy cfg.notification_channel = false)
    (hbad : optFalsy cfg.notification_role = true ∨
            env.resolveRole (cfg.notification_role.getD 0) = false ∨
            env.resolveChannel (cfg.notification_channel.getD 0) = false) :
    (notify_new_application cfg env mid = .configMissing ∨
     notify_new_application cfg env mid = .configInvalid) ∧
    sendAttempted (notify_new_application cfg env mid) = false := by
  have hres : notify_new_application cfg env mid = .configMissing ∨
      notify_new_application cfg env mid = .configInvalid := by
    by_cases h1 : optFalsy cfg.notification_role = true
    · left
      simp [notify_new_application, h1]
    · right
      have h2 : env.resolveRole (cfg.notification_role.getD 0) = false ∨
          env.resolveChannel (cfg.notification_channel.getD 0) = false := by
        rcases hbad with h | h | h
        · exact absurd h h1
        · exact Or.inl h
        · exact Or.inr h
      rcases h2 with h | h <;>
        simp [notify_new_application, hchan,
          Bool.of_not_eq_true h1, h]
  refine ⟨hres, ?_⟩
  rcases hres with h | h <;> rw [h] <;> rfl

theorem notify_config_failure_no_send_witness :
    optFalsy (GuildConfig.mk (some 1) none true false 60).notification_channel
        = false ∧
    (optFalsy (GuildConfig.mk (some 1) none true false 60).notification_role
        = true ∨
      envOk.resolveRole ((GuildConfig.mk (some 1) none true false
        60).notification_role.getD 0) = false ∨
      envOk.resolveChannel ((GuildConfig.mk (some 1) none true false
        60).notification_channel.getD 0) = false) ∧
    ((notify_new_application (GuildConfig.mk (some 1) none true false 60)
        envOk 9 = .configMissing ∨
      notify_new_application (GuildConfig.mk (some 1) none true false 60)
        envOk 9 = .configInvalid) ∧
    sendAttempted (notify_new_application
        (GuildConfig.mk (some 1) none true false 60) envOk 9) = false) :=
  ⟨rfl, Or.inl rfl, notify_config_failure_no_send
    (GuildConfig.mk (some 1) none true false 60) envOk 9 rfl (Or.inl rfl)⟩

/-- C6: disabling monitoring via `toggle` removes the guild's tracker
entry entirely, and re-enabling (without an explicit reset) seeds the
tracker from the members currently flagged pending — for every prior
tracker state, so never from a stale prior set. -/
theorem toggle_clear_and_reseed (kp : Tracker) (g : GuildId)
    (snap snap2 : Finset MemberId) :
    (toggle kp g true snap).1 = false ∧
    (toggle kp g true snap).2 g = none ∧
    (toggle (toggle kp g true snap).2 g false snap2).1 = true ∧
    (toggle (toggle kp g true snap).2 g false snap2).2 g = some snap2 := by
  simp [toggle, Tracker.del, Tracker.store]

/-- C10: the per-guild log buffer never exceeds 50 entries — an append
at 50 entries evicts the oldest entry — and the `logs` command clamps
its requested line count to between 1 and 50. -/
theorem log_buffer_bound :
    (∀ (logs : List String) (e : String), (add_log logs e).length ≤ 50) ∧
    (∀ (logs : List String) (e : String), logs.length = 50 →
        add_log logs e = logs.drop 1 ++ [e]) ∧
    (∀ n : Int, 1 ≤ clampLines n ∧ clampLines n ≤ 50) := by
  refine ⟨fun logs e => ?_, fun logs e h => ?_, fun n => ?_⟩
  · simp only [add_log, List.length_drop, List.length_append,
      List.length_singleton]
    omega
  · rw [add_log, h]
    have h1 : (1 : Nat) ≤ logs.length := by omega
    simp [List.drop_append_of_le_length h1]
  · refine ⟨le_min (le_max_right n 1) (by norm_num), min_le_right _ _⟩

theorem log_buffer_bound_witness :
    (List.replicate 50 "x").length = 50 ∧
    add_log (List.replicate 50 "x") "y" =
      (List.replicate 50 "x").drop 1 ++ ["y"] :=
  ⟨by simp, log_buffer_bound.2.1 (List.replicate 50 "x") "y" (by simp)⟩

/-- C8: the member-join listener (modelled from the spec, as no such
listener exists under `src/`) always logs the event; with monitoring
enabled and screening active it does not itself notify, and with
screening absent it notifies immediately for the join. -/
theorem on_member_join_spec (monitoringEnabled screeningActive : Bool) :
    (on_member_join monitoringEnabled screeningActive).logged = true ∧
    (monitoringEnabled = true → screeningActive = true →
      (on_member_join monitoringEnabled
        screeningActive).notifiesImmediately = false) ∧
    (screeningActive = false →
      (on_member_join monitoringEnabled
        screeningActive).notifiesImmediately = true) := by
  refine ⟨rfl, fun _ hs => ?_, fun hs => ?_⟩ <;>
    simp [on_member_join, hs]

theorem on_member_join_spec_witness :
    ((on_member_join true true).notifiesImmediately = false) ∧
    ((on_member_join true false).notifiesImmediately = true) :=
  ⟨(on_member_join_spec true true).2.1 rfl rfl,
   (on_member_join_spec true false).2.2 rfl⟩

/-- C4: a member-update event observing the transition from pending to
not pending, with monitoring enabled and the configured channel and role
both set and resolvable, produces exactly one approval notification
attempt — delivered when the send capability succeeds — and removes the
member's id from the guild's tracker entry; the prior tracker state is
arbitrary, so this holds independently of the reconciliation loop's
progress. -/
theorem on_member_update_approval (kp : Tracker) (g : GuildId)
    (cfg : GuildConfig) (env : NotifyEnv) (mid : MemberId)
    (hen : cfg.enabled = true)
    (hchan : optFalsy cfg.notification_channel = false)
    (hrole : optFalsy cfg.notification_role = false)
    (hrc : env.resolveChannel (cfg.notification_channel.getD 0) = true)
    (hrr : env.resolveRole (cfg.notification_role.getD 0) = true)
    (hdel : env.delivery mid = none) :
    (on_member_update kp g cfg env true false mid).2 =
        [⟨.approval, mid, .sent⟩] ∧
    (∀ s, (on_member_update kp g cfg env true false mid).1 g = some s →
      mid ∉ s) := by
  constructor
  · simp [on_member_update, hen, hchan, hrole, hrc, hrr, hdel]
  · intro s hs
    have hform : (on_member_update kp g cfg env true false mid).1 g
        = (kp g).map (fun u => u.erase mid) := by
      simp [on_member_update, hen, hchan, hrole, hrc, hrr, hdel]
    rw [hform] at hs
    cases hkp : kp g with
    | none => rw [hkp] at hs; exact absurd hs (by simp)
    | some t =>
        rw [hkp] at hs
        have ht : t.erase mid = s := Option.some.inj hs
        rw [← ht]
        exact Finset.not_mem_erase mid t

theorem on_member_update_approval_witness :
    cfgOn.enabled = true ∧
    optFalsy cfgOn.notification_channel = false ∧
    optFalsy cfgOn.notification_role = false ∧
    envOk.resolveChannel (cfgOn.notification_channel.getD 0) = true ∧
    envOk.resolveRole (cfgOn.notification_role.getD 0) = true ∧
    envOk.delivery 5 = none ∧
    ((on_member_update (fun _ => some {5, 6}) 3 cfgOn envOk true false 5).2 =
        [⟨.approval, 5, .sent⟩] ∧
    (∀ s, (on_member_update (fun _ => some {5, 6}) 3 cfgOn envOk true false
        5).1 3 = some s → 5 ∉ s)) :=
  ⟨rfl, rfl, rfl, rfl, rfl, rfl, on_member_update_approval
    (fun _ => some {5, 6}) 3 cfgOn envOk 5 rfl rfl rfl rfl rfl rfl⟩

/-- C3 counterexample: an exception raised at the loop-level
configuration read for the first guild is caught by the loop handler,
but it does abort the cycle for the second guild — processed on its own,
the second guild's snapshot would be stored, while in the faulted pass
it is not. -/
theorem runPass_config_fault_skips_rest :
    runPass kpEmpty envOk
        [GuildState.mk 1 (.error ()) (.ok ∅) (fun _ => true),
         GuildState.mk 2 (.ok cfgOn) (.ok {7}) (fun _ => true)] 2 = none ∧
    (check_pending_members kpEmpty
        (GuildState.mk 2 (.ok cfgOn) (.ok {7}) (fun _ => true)) envOk).1 2
      = some {7} := by
  constructor
  · rfl
  · simp [check_pending_members, cfgOn, Tracker.store, kpEmpty]

/-- C3 amended: a fault inside one guild's reconciliation (for instance
while listing its pending members) is caught at the guild boundary by
`check_pending_members`' handler — the tracker is untouched, no attempt
is made, and the remaining guilds of the pass are processed normally; a
fault at the loop-level configuration read is caught by the loop's outer
handler and does not stop the loop — the loop sleeps and proceeds to the
next pass — but the remainder of that pass is skipped. -/
theorem reconcile_fault_isolation (kp : Tracker) (env : NotifyEnv)
    (g : GuildState) (rest : List GuildState)
    (passes : List (List GuildState)) (cfg : GuildConfig) :
    (g.cfgRead = .ok cfg → g.pendingFetch = .error () →
      check_pending_members kp g env = (kp, []) ∧
      runPass kp env (g :: rest) = runPass kp env rest) ∧
    (g.cfgRead = .error () →
      runPass kp env (g :: rest) = kp ∧
      runLoop kp env ((g :: rest) :: passes) = runLoop kp env passes) := by
  constructor
  · intro hcfg hp
    have hcheck : check_pending_members kp g env = (kp, []) := by
      cases hen : cfg.enabled with
      | false => simp [check_pending_members, hcfg, hen]
      | true => simp [check_pending_members, hcfg, hen, hp]
    refine ⟨hcheck, ?_⟩
    cases hen : cfg.enabled with
    | false => simp [runPass, hcfg, hen]
    | true => simp [runPass, hcfg, hen, hcheck]
  · intro hcfg
    have hpass : runPass kp env (g :: rest) = kp := by
      simp [runPass, hcfg]
    exact ⟨hpass, by simp [runLoop, hpass]⟩

theorem reconcile_fault_isolation_witness :
    ((GuildState.mk 1 (.ok cfgOn) (.error ()) (fun _ => true)).cfgRead
        = .ok cfgOn ∧
     (GuildState.mk 1 (.ok cfgOn) (.error ()) (fun _ => true)).pendingFetch
        = .error () ∧
     check_pending_members kpEmpty
        (GuildState.mk 1 (.ok cfgOn) (.error ()) (fun _ => true)) envOk
        = (kpEmpty, []) ∧
     runPass kpEmpty envOk
        [GuildState.mk 1 (.ok cfgOn) (.error ()) (fun _ => true),
         GuildState.mk 2 (.ok cfgOn) (.ok {7}) (fun _ => true)]
        = runPass kpEmpty envOk
            [GuildState.mk 2 (.ok cfgOn) (.ok {7}) (fun _ => true)]) ∧
    ((GuildState.mk 1 (.error ()) (.ok ∅) (fun _ => true)).cfgRead
        = .error () ∧
     runPass kpEmpty envOk
        [GuildState.mk 1 (.error ()) (.ok ∅) (fun _ => true)] = kpEmpty ∧
     runLoop kpEmpty envOk
        [[GuildState.mk 1 (.error ()) (.ok ∅) (fun _ => true)], []]
        = runLoop kpEmpty envOk [[]]) :=
  ⟨⟨rfl, rfl,
    (reconcile_fault_isolation kpEmpty envOk
      (GuildState.mk 1 (.ok cfgOn) (.error ()) (fun _ => true))
      [GuildState.mk 2 (.ok cfgOn) (.ok {7}) (fun _ => true)] [[]]
      cfgOn).1 rfl rfl⟩,
   ⟨rfl,
    (reconcile_fault_isolation kpEmpty envOk
      (GuildState.mk 1 (.error ()) (.ok ∅) (fun _ => true)) [] [[]]
      cfgOn).2 rfl⟩⟩

/-- C7 counterexample: a permission fault on an APPLICATION delivery is
handled by `notify_new_application`'s single `except Exception` branch,
so it is not reported as a FORBIDDEN outcome distinct from other faults
— unlike the `test` command's handler, which does distinguish it. -/
theorem application_forbidden_not_distinct :
    application_classify Fault.forbidden = HandlerOutcome.unknownReported ∧
    application_classify Fault.otherError = HandlerOutcome.unknownReported ∧
    test_classify Fault.forbidden = HandlerOutcome.forbiddenReported ∧
    application_classify Fault.forbidden ≠ test_classify Fault.forbidden := by
  refine ⟨rfl, rfl, rfl, ?_⟩
  decide

/-- C7 amended: every delivery fault is non-fatal — the notifier returns
an outcome instead of propagating, and a failing delivery never prevents
a reconciliation step from completing and overwriting the snapshot — but
the FORBIDDEN/UNKNOWN distinction exists only in the TEST command's
handler; the APPLICATION and APPROVAL call sites catch every delivery
fault in one generic branch. -/
theorem delivery_fault_classification (f : Fault) (kp : Tracker)
    (g : GuildState) (env : NotifyEnv) (cfg : GuildConfig)
    (current : Finset MemberId) (mid : MemberId) :
    test_classify .forbidden = .forbiddenReported ∧
    test_classify .otherError = .unknownReported ∧
    application_classify f = .unknownReported ∧
    approval_classify f = .unknownReported ∧
    (env.delivery mid = some f →
      notify_new_application cfg env mid = .configMissing ∨
      notify_new_application cfg env mid = .configInvalid ∨
      notify_new_application cfg env mid = .sendError f) ∧
    (g.cfgRead = .ok cfg → cfg.enabled = true →
      g.pendingFetch = .ok current →
      (check_pending_members kp g env).1 g.gid = some current) := by
  refine ⟨rfl, rfl, rfl, rfl, fun hdel => ?_, fun hcfg hen hp => ?_⟩
  · rw [notify_new_application]
    by_cases h1 : (optFalsy cfg.notification_channel ||
        optFalsy cfg.notification_role) = true
    · rw [if_pos h1]; exact Or.inl rfl
    · rw [if_neg h1]
      by_cases h2 : (!(env.resolveChannel (cfg.notification_channel.getD 0) &&
          env.resolveRole (cfg.notification_role.getD 0))) = true
      · rw [if_pos h2]; exact Or.inr (Or.inl rfl)
      · rw [if_neg h2, hdel]; exact Or.inr (Or.inr rfl)
  · simp [check_pending_members, hcfg, hen, hp, Tracker.store]

theorem delivery_fault_classification_witness :
    ((fun _ => some Fault.forbidden : MemberId → Option Fault) 9
        = some Fault.forbidden ∧
      (notify_new_application cfgOn
        ⟨fun _ => true, fun _ => true, fun _ => some Fault.forbidden⟩ 9
        = .configMissing ∨
      notify_new_application cfgOn
        ⟨fun _ => true, fun _ => true, fun _ => some Fault.forbidden⟩ 9
        = .configInvalid ∨
      notify_new_application cfgOn
        ⟨fun _ => true, fun _ => true, fun _ => some Fault.forbidden⟩ 9
        = .sendError Fault.forbidden)) ∧
    ((GuildState.mk 3 (.ok cfgOn) (.ok {9}) (fun _ => true)).cfgRead
        = .ok cfgOn ∧
      cfgOn.enabled = true ∧
      (check_pending_members kpEmpty
        (GuildState.mk 3 (.ok cfgOn) (.ok {9}) (fun _ => true))
        ⟨fun _ => true, fun _ => true, fun _ => some Fault.forbidden⟩).1 3
        = some {9}) :=
  ⟨⟨rfl, (delivery_fault_classification Fault.forbidden kpEmpty
      (GuildState.mk 3 (.ok cfgOn) (.ok {9}) (fun _ => true))
      ⟨fun _ => true, fun _ => true, fun _ => some Fault.forbidden⟩
      cfgOn {9} 9).2.2.2.2.1 rfl⟩,
   ⟨rfl, rfl,
    (delivery_fault_classification Fault.forbidden kpEmpty
      (GuildState.mk 3 (.ok cfgOn) (.ok {9}) (fun _ => true))
      ⟨fun _ => true, fun _ => true, fun _ => some Fault.forbidden⟩
      cfgOn {9} 9).2.2.2.2.2 rfl rfl rfl⟩⟩
